import Mathlib

/-!
Verification of the reconciliation engine of `invenio_moodle`
(`src/invenio_moodle/utils.py`) against its natural-language specification.

The development shallowly embeds the data model and the operations of
`utils.py`: JSON documents become an inductive type, the key dataclasses
become structures, the metadata transformations become functions that return
the sequence of `LOMMetadata` method calls they issue, and the staged body of
`insert_moodle_into_db` becomes one function per stage.  External
collaborators (the persistent-identifier registry, the record service, the
`LOMMetadata` library, Python standard-library helpers) are not part of the
repository; where a theorem depends on them they are modelled from the
specification and marked as such in their doc comments.
-/

namespace InvenioMoodle

/-- Decidable equality for `Except` results, so that closed theorems about
fallible operations can be settled by evaluation. -/
instance {e a : Type} [DecidableEq e] [DecidableEq a] : DecidableEq (Except e a) :=
  fun x y =>
    match x, y with
    | Except.error e1, Except.error e2 =>
      if h : e1 = e2 then isTrue (by rw [h]) else isFalse (fun hc => h (Except.error.inj hc))
    | Except.ok v1, Except.ok v2 =>
      if h : v1 = v2 then isTrue (by rw [h]) else isFalse (fun hc => h (Except.ok.inj hc))
    | Except.error _, Except.ok _ => isFalse (fun hc => Except.noConfusion hc)
    | Except.ok _, Except.error _ => isFalse (fun hc => Except.noConfusion hc)

/-- JSON documents, as handled by the engine.  Arrays and objects are encoded
as cons-chains so that structural (deep) equality is decidable; this mirrors
Python `dict`/`list` values compared with `==`/`!=`. -/
inductive Json where
  | null
  | str (s : String)
  | num (n : Int)
  | arr_nil
  | arr_cons (head tail : Json)
  | obj_nil
  | obj_cons (key : String) (value rest : Json)
deriving DecidableEq

/-- Whether the string `s` occurs as a string leaf anywhere inside a
document.  Used to express that a document references a persistent
identifier. -/
def Json.mentions (s : String) : Json → Bool
  | .str t => t == s
  | .arr_cons head tail => head.mentions s || tail.mentions s
  | .obj_cons _ value rest => value.mentions s || rest.mentions s
  | _ => false

/-- Modelled from the spec: Python string comparison (`<` on `str`), which is
lexicographic on code points.  Needed because `list.sort` in
`update_file_metadata` compares sort keys that contain strings. -/
def chars_lt : List Char → List Char → Bool
  | [], [] => false
  | [], _ :: _ => true
  | _ :: _, [] => false
  | a :: as, b :: bs => a < b || (a == b && chars_lt as bs)

/-- Python `a < b` on strings. -/
def pystr_lt (a b : String) : Bool := chars_lt a.data b.data

/-- The sort order used at `utils.py:344`:
`oefos_ids.sort(key=lambda id_: (-len(id_), id_))`.  Python sorts ascending
by the key tuple, so `a` comes no later than `b` iff `b` is shorter than `a`,
or they have equal length and `a` is lexicographically no greater than
`b`. -/
def oefos_le (a b : String) : Bool :=
  decide (b.length < a.length) ||
    (decide (a.length = b.length) && (pystr_lt a b || a == b))

/-- Insertion step of the sort of `utils.py:344`. -/
def insert_sorted (x : String) : List String → List String
  | [] => [x]
  | y :: ys => if oefos_le x y then x :: y :: ys else y :: insert_sorted x ys

/-- The sort of `utils.py:344`.  The sort key `(-len(id_), id_)` determines
each element completely (two entries with equal keys are the same string), so
the sorted result is the unique ordered permutation and any sorting algorithm
realises Python `list.sort` here. -/
def sort_oefos : List String → List String
  | [] => []
  | x :: xs => insert_sorted x (sort_oefos xs)

/-- Digit-folding helper for `parse_int`; accumulates `none` until at least
one digit has been read, and rejects non-digit characters. -/
def parse_digits : List Char → Option Nat → Option Nat
  | [], acc => acc
  | c :: cs, acc =>
    if c.isDigit then
      parse_digits cs (some ((acc.getD 0) * 10 + (c.toNat - '0'.toNat)))
    else
      none

/-- Modelled from the spec: Python `int(...)` applied to a string
(`utils.py:312`), which raises `ValueError` on input that is not an integer
literal. -/
def parse_int (s : String) : Option Int :=
  match s.data with
  | '-' :: rest => (parse_digits rest none).map (fun n => -(n : Int))
  | l => (parse_digits l none).map (fun n => (n : Int))

/-- Python `int(...)` as an `Except`, raising `ValueError`. -/
def py_int (s : String) : Except String Int :=
  match parse_int s with
  | some n => Except.ok n
  | none => Except.error ("ValueError: invalid literal for int with base 10: " ++ s)

/-- Character-level worker for `html_unescape`. -/
def unescape_chars : List Char → List Char
  | '&' :: 'a' :: 'm' :: 'p' :: ';' :: rest => '&' :: unescape_chars rest
  | '&' :: 'l' :: 't' :: ';' :: rest => '<' :: unescape_chars rest
  | '&' :: 'g' :: 't' :: ';' :: rest => '>' :: unescape_chars rest
  | '&' :: 'q' :: 'u' :: 'o' :: 't' :: ';' :: rest => '"' :: unescape_chars rest
  | c :: rest => c :: unescape_chars rest
  | [] => []

/-- Modelled from the spec: Python `html.unescape` (standard library,
external to this repository), which decodes HTML character entities; modelled
here on the predefined XML entities.  No claim depends on the exact entity
table. -/
def html_unescape (s : String) : String := String.mk (unescape_chars s.data)

/-- The value stored in the `hash_md5` field of a `FileCacheInfo`.  The field
is declared as `str` in the source; `hexdigest` is the hexadecimal digest
string produced by `hash_.hexdigest()`, while `md5_object` represents the
`hashlib.md5` hasher object itself (determined by the bytes fed to it), which
is not a string. -/
inductive HashValue where
  | hexdigest (s : String)
  | md5_object (fed_bytes : List Nat)
deriving DecidableEq

/-- `FileCacheInfo` of `utils.py:33`: holds a file path and the file's
md5 hash. -/
structure FileCacheInfo where
  hash_md5 : HashValue
  path : String
deriving DecidableEq

/-- `FileKey` of `utils.py:50`: a frozen dataclass over the md5 hash and the
url.  Dataclass equality compares all fields, so two `FileKey`s with equal
hashes but different urls are unequal values. -/
structure FileKey where
  hash_md5 : String
  url : String
deriving DecidableEq

/-- `FileKey.to_string_key` (`utils.py:57`): purposefully depends only on the
hash, not on the url. -/
def FileKey.to_string_key (k : FileKey) : String :=
  "FileKey(hash_md5=" ++ k.hash_md5 ++ ")"

/-- `UnitKey` of `utils.py:63`. -/
structure UnitKey where
  courseid : String
  year : String
  semester : String
deriving DecidableEq

/-- `UnitKey.to_string_key` (`utils.py:79`). -/
def UnitKey.to_string_key (k : UnitKey) : String :=
  "UnitKey(courseid=" ++ k.courseid ++ ", year=" ++ k.year ++ ", semester=" ++ k.semester ++ ")"

/-- `CourseKey` of `utils.py:84`. -/
structure CourseKey where
  courseid : String
deriving DecidableEq

/-- `CourseKey.to_string_key` (`utils.py:96`). -/
def CourseKey.to_string_key (k : CourseKey) : String :=
  "CourseKey(courseid=" ++ k.courseid ++ ")"

/-- The abstract `Key` ancestor (`utils.py:41`) as a sum of its three
variants; `isinstance` dispatch becomes a `match` on the tag. -/
inductive Key where
  | file (k : FileKey)
  | unit (k : UnitKey)
  | course (k : CourseKey)
deriving DecidableEq

/-- `Key.to_string_key`, dispatching to the variant's implementation. -/
def Key.to_string_key : Key → String
  | .file k => k.to_string_key
  | .unit k => k.to_string_key
  | .course k => k.to_string_key

/-- An entry of the `persons` list of a moodle file record
(`schemas.py:52`). -/
structure PersonJson where
  firstname : String
  lastname : String
  role : String
deriving DecidableEq

/-- An entry of the `values` list of a classification group
(`schemas.py:14`). -/
structure ClassificationValueJson where
  identifier : String
  name : String
deriving DecidableEq

/-- A classification group of a moodle file record (`schemas.py:21`).  The
`type` field of the schema is spelled `type_` here because `type` is a Lean
keyword. -/
structure ClassificationJson where
  type_ : String
  url : String
  values : List ClassificationValueJson
deriving DecidableEq

/-- The `license` object of a moodle file record (`schemas.py:44`). -/
structure LicenseJson where
  fullname : String
  shortname : String
  source : String
deriving DecidableEq

/-- A moodle course record (`schemas.py:29`).  The `structure` field is
spelled `structure_` here because `structure` is a Lean keyword. -/
structure CourseJson where
  courseid : String
  courselanguage : String
  coursename : String
  description : String
  identifier : String
  lecturer : String
  objective : String
  organisation : String
  sourceid : String
  structure_ : String
deriving DecidableEq

/-- A moodle file record (`schemas.py:60`), without its nested `courses` list
(which is threaded separately where needed, exactly as the engine only ever
pairs one file record with one course record per task). -/
structure FileJson where
  abstract : String
  classification : List ClassificationJson
  context : String
  filecreationtime : String
  filesize : String
  fileurl : String
  language : String
  license : LicenseJson
  mimetype : String
  persons : List PersonJson
  resourcetype : String
  semester : String
  tags : List String
  timereleased : String
  title : String
  year : String
deriving DecidableEq

/-- `TaskLog` of `utils.py:101`: the per-entity working record of one run.
In the source `moodle_file_json` and `moodle_course_json` default to `None`
and are only filled in for unit and course tasks. -/
structure TaskLog where
  pid : String
  previous_json : Option Json
  json : Json
  moodle_file_json : Option FileJson
  moodle_course_json : Option CourseJson
deriving DecidableEq

/-- A mutation of a task's candidate document, as performed by the
transformer stages.  Only the `json` field is touched; `previous_json` is a
separate value (the source enforces this independence with `copy.deepcopy` at
`utils.py:186`). -/
def mutate_candidate (t : TaskLog) (f : Json → Json) : TaskLog :=
  { t with json := f t.json }

/-- One `LOMMetadata` method call, as issued by the transformation functions.
`LOMMetadata` itself is an external library (`invenio_records_lom`); the
embedded transformations return the exact sequence of calls the source
makes, with the exception that `set_datetime` records the parsed Unix
timestamp whose calendar-date rendering (`datetime.fromtimestamp`, external
standard library) is not modelled. -/
inductive MetaOp where
  | append_identifier (value catalog : String)
  | set_title (title language_code : String)
  | append_context (ctx : String)
  | append_language (lang : String)
  | append_description (text language_code : String)
  | append_contribute (name role : String)
  | append_keyword (keyword language_code : String)
  | set_datetime (timereleased : Int)
  | append_format (mimetype : String)
  | set_size (size : String)
  | append_learningresourcetype (value : String)
  | set_rights_url (url : String)
  | append_oefos_id (id_ : String) (lang : Option String)
  | append_relation (pid kind : String)
deriving DecidableEq

/-- Whether an op is an `append_learningresourcetype` call. -/
def MetaOp.is_lrt : MetaOp → Bool
  | .append_learningresourcetype _ => true
  | _ => false

/-- The identifiers passed to `append_oefos_id` calls, in order. -/
def oefos_append_ids (ops : List MetaOp) : List String :=
  ops.filterMap (fun op =>
    match op with
    | MetaOp.append_oefos_id id_ _ => some id_
    | _ => none)

/-- Python raises `TypeError` when subscripting `None`; this happens when a
transformation runs on a task whose moodle json fragments were never
attached. -/
def get_json (x : Option α) : Except String α :=
  match x with
  | some v => Except.ok v
  | none => Except.error "TypeError: NoneType object is not subscriptable"

/-- `update_course_metadata` (`utils.py:203`) as the sequence of
`LOMMetadata` calls it issues. -/
def update_course_metadata_ops (moodle_file_json : Option FileJson)
    (moodle_course_json : Option CourseJson) : Except String (List MetaOp) :=
  match get_json moodle_course_json with
  | Except.error e => Except.error e
  | Except.ok course_json =>
    let id_ops := [MetaOp.append_identifier course_json.courseid "moodle-id"]
    let title_ops := [MetaOp.set_title course_json.coursename course_json.courselanguage]
    match get_json moodle_file_json with
    | Except.error e => Except.error e
    | Except.ok file_json =>
      let context_ops := [MetaOp.append_context file_json.context]
      Except.ok (id_ops ++ title_ops ++ context_ops)

/-- `update_unit_metadata` (`utils.py:234`) as the sequence of `LOMMetadata`
calls it issues. -/
def update_unit_metadata_ops (moodle_file_json : Option FileJson)
    (moodle_course_json : Option CourseJson) : Except String (List MetaOp) :=
  match get_json moodle_course_json with
  | Except.error e => Except.error e
  | Except.ok course_json =>
  match get_json moodle_file_json with
  | Except.error e => Except.error e
  | Except.ok file_json =>
  let language := course_json.courselanguage
  let title :=
    course_json.coursename ++ " (" ++ file_json.semester ++ " " ++ file_json.year ++ ")"
  let title_ops := [MetaOp.set_title title language]
  let lang_ops := [MetaOp.append_language language]
  let desc_ops := [MetaOp.append_description (html_unescape course_json.description) language]
  let lecturer_ops :=
    (course_json.lecturer.splitOn ",").map
      (fun lecturer => MetaOp.append_contribute lecturer.trim "Author")
  Except.ok (title_ops ++ lang_ops ++ desc_ops ++ lecturer_ops)

/-- The fixed lookup table of `utils.py:327`; `"No selection"` maps to an
explicit null entry. -/
def learningresourcetype_by_resourcetype : List (String × Option String) :=
  [("No selection", none), ("Presentationslide", some "slide")]

/-- The subscript `learningresourcetype_by_resourcetype[resourcetype]` of
`utils.py:331`: a Python `dict` subscript raises `KeyError` when the key is
absent. -/
def lookup_learningresourcetype (resourcetype : String) : Except String (Option String) :=
  match learningresourcetype_by_resourcetype.lookup resourcetype with
  | some v => Except.ok v
  | none => Except.error ("KeyError: " ++ resourcetype)

/-- `update_file_metadata` (`utils.py:282`) as the sequence of `LOMMetadata`
calls it issues, including the trailing literal `append_oefos_id` calls of
`utils.py:349`.  Failure points, in source order: `int(timereleased)` and the
resource-type table subscript. -/
def update_file_metadata_ops (file_json : FileJson) : Except String (List MetaOp) :=
  let language := file_json.language
  let title_ops :=
    if file_json.title = "" then [] else [MetaOp.set_title file_json.title language]
  let lang_ops := [MetaOp.append_language language]
  let abstract := html_unescape file_json.abstract
  let abs_ops := if abstract = "" then [] else [MetaOp.append_description abstract language]
  let tag_ops :=
    (file_json.tags.filter (fun tag => tag ≠ "")).map
      (fun tag => MetaOp.append_keyword tag language)
  let person_ops :=
    file_json.persons.map
      (fun person =>
        MetaOp.append_contribute (person.firstname ++ " " ++ person.lastname) person.role)
  match py_int file_json.timereleased with
  | Except.error e => Except.error e
  | Except.ok timereleased =>
  let datetime_ops := [MetaOp.set_datetime timereleased]
  let format_ops := [MetaOp.append_format file_json.mimetype]
  let size_ops := [MetaOp.set_size file_json.filesize]
  match lookup_learningresourcetype file_json.resourcetype with
  | Except.error e => Except.error e
  | Except.ok learningresourcetype =>
  let lrt_ops :=
    match learningresourcetype with
    | some value => [MetaOp.append_learningresourcetype value]
    | none => []
  let rights_ops := [MetaOp.set_rights_url file_json.license.source]
  let oefos_ids :=
    file_json.classification.flatMap (fun c => c.values.map (fun v => v.identifier))
  let sorted_ids := sort_oefos oefos_ids
  let oefos_ops :=
    sorted_ids.flatMap
      (fun id_ => [MetaOp.append_oefos_id id_ none, MetaOp.append_oefos_id id_ (some "en")])
  let extra_ops :=
    [MetaOp.append_oefos_id "1010" none, MetaOp.append_oefos_id "101001" none,
      MetaOp.append_oefos_id "1010" none]
  Except.ok
    (title_ops ++ lang_ops ++ abs_ops ++ tag_ops ++ person_ops ++ datetime_ops ++
      format_ops ++ size_ops ++ lrt_ops ++ rights_ops ++ oefos_ops ++ extra_ops)

/-- One iteration of the transform-dispatch loop of `utils.py:443`:
`isinstance(key, UnitKey)` → unit transform, `isinstance(key, CourseKey)` →
course transform, anything else (in particular every `FileKey`) → raise
`TypeError`.  `apply_ops` stands for the external `LOMMetadata` semantics
that folds the issued calls into the candidate document. -/
def update_task (apply_ops : Json → List MetaOp → Json) (key : Key) (item : TaskLog) :
    Except String TaskLog :=
  match key with
  | Key.unit _ =>
      (update_unit_metadata_ops item.moodle_file_json item.moodle_course_json).map
        (fun ops => { item with json := apply_ops item.json ops })
  | Key.course _ =>
      (update_course_metadata_ops item.moodle_file_json item.moodle_course_json).map
        (fun ops => { item with json := apply_ops item.json ops })
  | Key.file _ => Except.error "TypeError: Cannot handle key of type \x7btype(key)\x7d."

/-- The transform-dispatch stage (`utils.py:443`): the loop over
`task_logs.items()` in insertion order; the first raised exception aborts the
run. -/
def update_stage (apply_ops : Json → List MetaOp → Json) :
    List (Key × TaskLog) → Except String (List (Key × TaskLog))
  | [] => Except.ok []
  | (key, item) :: rest => do
    let item2 ← update_task apply_ops key item
    let rest2 ← update_stage apply_ops rest
    Except.ok ((key, item2) :: rest2)

/-- `link_up` (`utils.py:191`): append a `haspart` relation referencing the
part's pid to the whole's json and an `ispartof` relation referencing the
whole's pid to the part's json.  `append_rel` stands for the external
`LOMMetadata.append_relation`. -/
def link_up (append_rel : Json → String → String → Json) (whole part : TaskLog) :
    TaskLog × TaskLog :=
  ({ whole with json := append_rel whole.json part.pid "haspart" },
    { part with json := append_rel part.json whole.pid "ispartof" })

/-- The link set built by `insert_moodle_into_db` (`utils.py:437`): the set
is created empty, and the only `links.add(...)` in the source is commented
out, so the computed link set is empty for every batch. -/
def compute_links (_task_logs : List (Key × TaskLog)) : List (Key × Key) := []

/-- Replace the task stored under `k` (the in-place mutation of a
`task_logs` entry). -/
def set_task (tls : List (Key × TaskLog)) (k : Key) (t : TaskLog) : List (Key × TaskLog) :=
  tls.map (fun kt => if kt.1 = k then (k, t) else kt)

/-- The record-linking stage (`utils.py:433`): for every pair in the
computed link set, run `link_up` on the corresponding entries of
`task_logs`. -/
def link_stage (append_rel : Json → String → String → Json)
    (task_logs : List (Key × TaskLog)) : List (Key × TaskLog) :=
  (compute_links task_logs).foldl
    (fun tls wp =>
      match tls.lookup wp.1, tls.lookup wp.2 with
      | some whole, some part =>
          let (whole2, part2) := link_up append_rel whole part
          set_task (set_task tls wp.1 whole2) wp.2 part2
      | _, _ => tls)
    task_logs

/-- One call issued against the record service by the commit pipeline. -/
inductive StoreOp where
  | edit (pid : String)
  | update_draft (pid : String) (data : Json)
  | publish (pid : String)
deriving DecidableEq

/-- The pid a store operation addresses. -/
def StoreOp.pid : StoreOp → String
  | .edit p => p
  | .update_draft p _ => p
  | .publish p => p

/-- The draft-update loop of `utils.py:455`: for every task whose
`previous_json` differs from its candidate `json` (Python `!=`, deep
structural inequality; `None` compares unequal to every dict), ensure a
draft exists (`edit`) and write the candidate json (`update_draft`). -/
def update_drafts_ops (items : List TaskLog) : List StoreOp :=
  items.flatMap (fun item =>
    if item.previous_json = some item.json then []
    else [StoreOp.edit item.pid, StoreOp.update_draft item.pid item.json])

/-- The pids the publish loop of `utils.py:465` publishes: exactly the tasks
whose candidate json changed, in task order. -/
def publish_pids (items : List TaskLog) : List String :=
  items.flatMap (fun item =>
    if item.previous_json = some item.json then [] else [item.pid])

/-- All service calls issued by the commit pipeline (`utils.py:451`), in
order: the draft-update loop followed by the publish loop. -/
def commit_ops (items : List TaskLog) : List StoreOp :=
  update_drafts_ops items ++ (publish_pids items).map StoreOp.publish

/-- The published/drafts portion of the persistent store visible to the
publish phase. -/
structure PublishState where
  published : List String
  drafts : List (String × Json)
deriving DecidableEq

/-- Modelled from the spec: the sequential publish loop inside the
`UnitOfWork` scope (`utils.py:464`).  `UnitOfWork` is external
(`invenio_records_resources`); per the spec, registering each publish with
the scope makes a failure of any publish abort the loop. -/
def publish_loop (fails : String → Bool) (published : List String) :
    List String → Except String (List String)
  | [] => Except.ok published
  | p :: rest =>
    if fails p then Except.error p else publish_loop fails (published ++ [p]) rest

/-- Modelled from the spec: the transactional publish phase
(`utils.py:461`).  The `UnitOfWork` scope commits the accumulated publishes
only when the loop finishes without error; if any publish fails, the scope
rolls back every publish issued in it, leaving the store state as it was
before the phase (drafts written earlier are untouched either way). -/
def run_publish_phase (fails : String → Bool) (st : PublishState)
    (items : List TaskLog) : PublishState × Option String :=
  match publish_loop fails st.published (publish_pids items) with
  | Except.ok published2 => (⟨published2, st.drafts⟩, none)
  | Except.error e => (st, some e)

/-- One call issued against the registry/record service by
`fetch_else_create`. -/
inductive SvcOp where
  | create (database_key : String)
  | read (pid : String)
deriving DecidableEq

/-- `fetch_else_create` (`utils.py:158`), together with the trace of service
calls it makes.  External collaborators are modelled as parameters:
`registry` stands for the two-step pidstore resolution (the moodle pid and
the lomid pid resolved from it, collapsed to one lookup returning the lom
pid value), `store_read` for `service.read(...).to_dict()`, and
`fresh_pid`/`fresh_json` for the id and representation of the draft returned
by `service.create` on the freshly built metadata.  In the found branch the
source sets `json_ = copy.deepcopy(previous_json)`; deep copying is value
equality here, with the candidate held in a field separate from
`previous_json`. -/
def fetch_else_create (registry : String → Option String) (store_read : String → Json)
    (fresh_pid : String) (fresh_json : Json) (database_key : String) :
    TaskLog × List SvcOp :=
  match registry database_key with
  | none =>
      (⟨fresh_pid, none, fresh_json, none, none⟩, [SvcOp.create database_key])
  | some pid =>
      (⟨pid, some (store_read pid), store_read pid, none, none⟩, [SvcOp.read pid])

/-- Phase of `cache_files` for provided files (`utils.py:130`): hash the
local file in chunks and store the hexadecimal digest string.  `md5hex`
stands for the external `hashlib` md5 hexdigest of a byte stream, `read_file`
for reading the file at a path. -/
def cache_provided (md5hex : List Nat → String) (read_file : String → List Nat) :
    List (String × String) → List (String × FileCacheInfo)
  | [] => []
  | (url, path) :: rest =>
      (url, ⟨HashValue.hexdigest (md5hex (read_file path)), path⟩) ::
        cache_provided md5hex read_file rest

/-- Phase of `cache_files` for unprovided files (`utils.py:139`): download
each url not in the provided mapping to `directory/<index>` while hashing the
bytes, aborting on transport errors (`raise_for_status`).  The resulting
entry stores `hash_` — the hasher object itself, not its hexdigest
(`utils.py:152`). -/
def cache_downloads (download : String → Except String (List Nat)) (directory : String)
    (provided_urls : List String) :
    List (Nat × String) → Except String (List (String × FileCacheInfo))
  | [] => Except.ok []
  | (idx, url) :: rest =>
    if provided_urls.contains url then
      cache_downloads download directory provided_urls rest
    else do
      let bytes ← download url
      let rest_cache ← cache_downloads download directory provided_urls rest
      Except.ok
        ((url, ⟨HashValue.md5_object bytes, directory ++ "/" ++ toString idx⟩) :: rest_cache)

/-- `cache_files` (`utils.py:112`).  The `provided_filepaths_by_url`
argument is optional at the call site (`insert_moodle_into_db` defaults it
to `None`); iterating `None.items()` raises `AttributeError` before any
reference is resolved. -/
def cache_files (md5hex : List Nat → String) (read_file : String → List Nat)
    (download : String → Except String (List Nat)) (directory : String)
    (provided_filepaths_by_url : Option (List (String × String))) (urls : List String) :
    Except String (List (String × FileCacheInfo)) :=
  match provided_filepaths_by_url with
  | none => Except.error "AttributeError: NoneType object has no attribute items"
  | some provided => do
      let downloads ← cache_downloads download directory (provided.map Prod.fst) urls.enum
      Except.ok (cache_provided md5hex read_file provided ++ downloads)

/-- The cache step of `insert_moodle_into_db` when the caller omits
`filepaths_by_url` (`utils.py:358`): the default `None` is passed through to
`cache_files` as `provided_filepaths_by_url` (`utils.py:388`). -/
def insert_moodle_cache_step (md5hex : List Nat → String) (read_file : String → List Nat)
    (download : String → Except String (List Nat)) (directory : String)
    (moodle_file_urls : List String) : Except String (List (String × FileCacheInfo)) :=
  cache_files md5hex read_file download directory none moodle_file_urls

/-! Concrete sample inputs used by the closed theorems below. -/

/-- A sample license object. -/
def sample_license : LicenseJson :=
  ⟨"CC BY 4.0", "cc-by", "https://creativecommons.org/licenses/by/4.0"⟩

/-- A sample moodle file record, parameterized by its resource-type string;
its classification identifiers are `["1010", "10", "101001"]`. -/
def sample_file (resourcetype : String) : FileJson :=
  ⟨"", [⟨"oefos", "https://oefos.example", [⟨"1010", "Mathematik"⟩, ⟨"10", "Naturwissenschaften"⟩, ⟨"101001", "Algebra"⟩]⟩],
    "course", "2022-01-01", "1024", "https://moodle.example/file.pdf", "de",
    sample_license, "application/pdf", [⟨"Ada", "Lovelace", "Author"⟩],
    resourcetype, "WS", ["tag1", ""], "1650000000", "Sample Title", "2022"⟩

/-- A sample moodle course record. -/
def sample_course_json : CourseJson :=
  ⟨"c42", "de", "Analysis", "Beschreibung", "ident-42", "Ada Lovelace, Alan Turing",
    "objective", "Institut", "src-42", "VO"⟩

/-- A file task as built by the prepare loop: its moodle json fragments are
never attached. -/
def c1_file_task : TaskLog := ⟨"pid-file-1", none, Json.obj_nil, none, none⟩

/-- A unit task with its source fragments attached. -/
def c1_unit_task : TaskLog :=
  ⟨"pid-unit-1", none, Json.obj_nil, some (sample_file "Presentationslide"), some sample_course_json⟩

/-- A course task with its source fragments attached. -/
def c1_course_task : TaskLog :=
  ⟨"pid-course-1", none, Json.obj_nil, some (sample_file "Presentationslide"), some sample_course_json⟩

/-- A `task_logs` batch containing a file, a unit and a course record, in
insertion order (the prepare loop inserts the file key first). -/
def c1_batch : List (Key × TaskLog) :=
  [(Key.file ⟨"0cc175b9c0f1b6a831c399e269772661", "https://moodle.example/file.pdf"⟩, c1_file_task),
    (Key.unit ⟨"c42", "2022", "WS"⟩, c1_unit_task),
    (Key.course ⟨"c42"⟩, c1_course_task)]

/-- A course task for the linking batch. -/
def c9_course_task : TaskLog :=
  ⟨"pid-course-9", none, Json.obj_nil, some (sample_file "Presentationslide"), some sample_course_json⟩

/-- A unit task for the linking batch; its unit belongs to course `c42`. -/
def c9_unit_task : TaskLog :=
  ⟨"pid-unit-9", none, Json.obj_nil, some (sample_file "Presentationslide"), some sample_course_json⟩

/-- A batch in which a unit belongs to a course. -/
def c9_batch : List (Key × TaskLog) :=
  [(Key.unit ⟨"c42", "2022", "WS"⟩, c9_unit_task), (Key.course ⟨"c42"⟩, c9_course_task)]

/-- A concrete stand-in for the external `append_relation`: it visibly
records the kind and the referenced pid in the document. -/
def sample_append_rel : Json → String → String → Json :=
  fun j pid kind => Json.obj_cons kind (Json.str pid) j

/-- A task whose candidate document equals its previous document. -/
def c2_task : TaskLog := ⟨"pid-2", some (Json.str "doc"), Json.str "doc", none, none⟩

/-- A changed task that publishes fine. -/
def c3_task_a : TaskLog := ⟨"pid-a", none, Json.str "a", none, none⟩

/-- A changed task whose publish fails. -/
def c3_task_b : TaskLog := ⟨"pid-b", none, Json.str "b", none, none⟩

/-- A concrete registry for the resolver theorems: only the course key
`c42` is known, resolving to lom pid `lom-7`. -/
def c7_registry : String → Option String :=
  fun k => if k = "CourseKey(courseid=c42)" then some "lom-7" else none

/-- A concrete store read function. -/
def c7_store_read : String → Json := fun _ => Json.str "stored"

/-- A concrete md5-hexdigest stand-in. -/
def c8_md5hex : List Nat → String := fun _ => "0cc175b9"

/-- A concrete local file reader: every path holds the bytes `[1, 2]`. -/
def c8_read_file : String → List Nat := fun _ => [1, 2]

/-- A concrete downloader: every url serves the bytes `[1, 2]` — the same
bytes as every local file, so derived hashes should agree. -/
def c8_download : String → Except String (List Nat) := fun _ => Except.ok [1, 2]

/-! Helper lemmas about the commit pipeline. -/

/-- Tasks whose documents are unchanged contribute no draft-write
operations. -/
theorem update_drafts_ops_nil {items : List TaskLog}
    (h : ∀ item ∈ items, item.previous_json = some item.json) :
    update_drafts_ops items = [] := by
  induction items with
  | nil => rfl
  | cons a l ih =>
    have ha := h a (List.mem_cons_self a l)
    have ih2 := ih (fun x hx => h x (List.mem_cons_of_mem a hx))
    simp only [update_drafts_ops, List.flatMap_cons, if_pos ha, List.nil_append]
    simpa [update_drafts_ops] using ih2

/-- Tasks whose documents are unchanged are not scheduled for
publication. -/
theorem publish_pids_nil {items : List TaskLog}
    (h : ∀ item ∈ items, item.previous_json = some item.json) :
    publish_pids items = [] := by
  induction items with
  | nil => rfl
  | cons a l ih =>
    have ha := h a (List.mem_cons_self a l)
    have ih2 := ih (fun x hx => h x (List.mem_cons_of_mem a hx))
    simp only [publish_pids, List.flatMap_cons, if_pos ha, List.nil_append]
    simpa [publish_pids] using ih2

/-- Every draft-write operation stems from a changed task and addresses that
task's pid. -/
theorem mem_update_drafts_ops {items : List TaskLog} {op : StoreOp}
    (hop : op ∈ update_drafts_ops items) :
    ∃ item ∈ items, ¬(item.previous_json = some item.json) ∧ StoreOp.pid op = item.pid := by
  induction items with
  | nil => simp [update_drafts_ops] at hop
  | cons a l ih =>
    simp only [update_drafts_ops, List.flatMap_cons, List.mem_append] at hop
    rcases hop with h1 | h2
    · by_cases hc : a.previous_json = some a.json
      · rw [if_pos hc] at h1
        simp at h1
      · rw [if_neg hc] at h1
        simp only [List.mem_cons, List.mem_singleton] at h1
        rcases h1 with rfl | h1
        · exact ⟨a, List.mem_cons_self a l, hc, rfl⟩
        · rcases h1 with rfl | h1
          · exact ⟨a, List.mem_cons_self a l, hc, rfl⟩
          · simp at h1
    · obtain ⟨item, hm, hch, hpid⟩ := ih (by simpa [update_drafts_ops] using h2)
      exact ⟨item, List.mem_cons_of_mem a hm, hch, hpid⟩

/-- Every scheduled publication stems from a changed task and addresses that
task's pid. -/
theorem mem_publish_pids {items : List TaskLog} {p : String}
    (hp : p ∈ publish_pids items) :
    ∃ item ∈ items, ¬(item.previous_json = some item.json) ∧ p = item.pid := by
  induction items with
  | nil => simp [publish_pids] at hp
  | cons a l ih =>
    simp only [publish_pids, List.flatMap_cons, List.mem_append] at hp
    rcases hp with h1 | h2
    · by_cases hc : a.previous_json = some a.json
      · rw [if_pos hc] at h1
        simp at h1
      · rw [if_neg hc] at h1
        simp only [List.mem_singleton] at h1
        exact ⟨a, List.mem_cons_self a l, hc, h1⟩
    · obtain ⟨item, hm, hch, hpid⟩ := ih (by simpa [publish_pids] using h2)
      exact ⟨item, List.mem_cons_of_mem a hm, hch, hpid⟩

/-- C2: a task whose `previous_json` equals its candidate `json` at commit
time receives no `edit`, no `update_draft` and no `publish` call for its pid;
and when every task of the batch is unchanged — as on a second run over the
same batch with unchanged store state — the commit pipeline issues zero
operations. -/
theorem commit_pipeline_skips_unchanged_tasks (items : List TaskLog) (p : String) :
    ((∀ item ∈ items, item.pid = p → item.previous_json = some item.json) →
      ∀ op ∈ commit_ops items, StoreOp.pid op ≠ p)
    ∧ ((∀ item ∈ items, item.previous_json = some item.json) →
      commit_ops items = []) := by
  constructor
  · intro h op hop hp
    have hop2 : op ∈ update_drafts_ops items ∨
        ∃ q ∈ publish_pids items, StoreOp.publish q = op := by
      simpa [commit_ops] using hop
    rcases hop2 with h1 | ⟨q, hq, rfl⟩
    · obtain ⟨item, hm, hch, hpid⟩ := mem_update_drafts_ops h1
      exact hch (h item hm (hpid.symm.trans hp))
    · obtain ⟨item, hm, hch, hpid⟩ := mem_publish_pids hq
      simp only [StoreOp.pid] at hp
      exact hch (h item hm (hpid.symm.trans hp))
  · intro h
    simp [commit_ops, update_drafts_ops_nil h, publish_pids_nil h]

/-- Witness for C2 at a concrete unchanged task. -/
theorem commit_pipeline_skips_unchanged_tasks_inst :
    commit_ops [c2_task] = [] :=
  (commit_pipeline_skips_unchanged_tasks [c2_task] "pid-2").2 (by decide)

/-! Helper lemmas about the publish loop. -/

/-- When no scheduled publish fails, the loop commits all of them in
order. -/
theorem publish_loop_ok (fails : String → Bool) (acc : List String)
    (pids : List String) (h : ∀ p ∈ pids, fails p = false) :
    publish_loop fails acc pids = Except.ok (acc ++ pids) := by
  induction pids generalizing acc with
  | nil => simp [publish_loop]
  | cons p rest ih =>
    have hp := h p (List.mem_cons_self p rest)
    simp only [publish_loop, hp, Bool.false_eq_true, if_false]
    rw [ih (acc ++ [p]) (fun q hq => h q (List.mem_cons_of_mem p hq))]
    simp

/-- When some scheduled publish fails, the loop raises. -/
theorem publish_loop_error (fails : String → Bool) (acc : List String)
    (pids : List String) (h : ∃ p ∈ pids, fails p = true) :
    ∃ e, publish_loop fails acc pids = Except.error e := by
  induction pids generalizing acc with
  | nil => simp at h
  | cons p rest ih =>
    by_cases hp : fails p = true
    · exact ⟨p, by simp [publish_loop, hp]⟩
    · obtain ⟨q, hq, hfq⟩ := h
      rcases List.mem_cons.mp hq with rfl | hq2
      · exact absurd hfq hp
      · obtain ⟨e, he⟩ := ih (acc ++ [p]) ⟨q, hq2, hfq⟩
        refine ⟨e, ?_⟩
        simp only [publish_loop, hp, Bool.false_eq_true, if_false]
        exact he

/-- C3: all publishes of a run are issued inside a single transactional
scope.  If any scheduled publish fails, the resulting store state equals the
pre-phase state (every publish already issued is rolled back); if none fails,
exactly the changed tasks are published; drafts written before the phase
survive in either case. -/
theorem publish_phase_all_or_nothing (fails : String → Bool) (st : PublishState)
    (items : List TaskLog) :
    ((∃ p ∈ publish_pids items, fails p = true) →
      (run_publish_phase fails st items).1 = st)
    ∧ ((∀ p ∈ publish_pids items, fails p = false) →
      (run_publish_phase fails st items).1 =
        ⟨st.published ++ publish_pids items, st.drafts⟩)
    ∧ (run_publish_phase fails st items).1.drafts = st.drafts := by
  refine ⟨fun h => ?_, fun h => ?_, ?_⟩
  · obtain ⟨e, he⟩ := publish_loop_error fails st.published (publish_pids items) h
    simp [run_publish_phase, he]
  · rw [run_publish_phase, publish_loop_ok fails st.published (publish_pids items) h]
  · rw [run_publish_phase]
    cases hl : publish_loop fails st.published (publish_pids items) <;> simp

/-- Witness for C3: with two changed tasks of which the second fails to
publish, the store state after the phase equals the state before it. -/
theorem publish_phase_all_or_nothing_inst :
    (run_publish_phase (fun p => p == "pid-b")
        ⟨["already"], [("pid-a", Json.str "a")]⟩ [c3_task_a, c3_task_b]).1 =
      ⟨["already"], [("pid-a", Json.str "a")]⟩ :=
  (publish_phase_all_or_nothing (fun p => p == "pid-b")
      ⟨["already"], [("pid-a", Json.str "a")]⟩ [c3_task_a, c3_task_b]).1
    ⟨"pid-b", by decide, by decide⟩

/-- The canonical string form of a `FileKey` determines, and is determined
by, the content hash alone. -/
theorem filekey_to_string_key_inj (h1 h2 : String)
    (h : "FileKey(hash_md5=" ++ h1 ++ ")" = "FileKey(hash_md5=" ++ h2 ++ ")") :
    h1 = h2 := by
  have hd := congrArg String.data h
  simp only [String.data_append, List.append_assoc] at hd
  have h3 := List.append_cancel_left hd
  have h4 := List.append_cancel_right h3
  cases h1
  cases h2
  exact congrArg String.mk h4

/-- C4 (amended): the canonical string keys of two `FileKey`s compare equal
exactly when their content hashes do, regardless of urls — so two references
with byte-identical content resolve to the same registry entity; but the
`FileKey` values themselves compare unequal whenever hash or url differ, so
the two references occupy two distinct `task_logs` entries within one run,
and references with equal url but different hashes yield unequal keys. -/
theorem filekey_string_key_ignores_url (k1 k2 : FileKey) :
    (k1.to_string_key = k2.to_string_key ↔ k1.hash_md5 = k2.hash_md5)
    ∧ (k1.hash_md5 ≠ k2.hash_md5 → k1 ≠ k2)
    ∧ (k1.hash_md5 = k2.hash_md5 → k1.url ≠ k2.url → k1 ≠ k2) := by
  refine ⟨⟨fun h => filekey_to_string_key_inj _ _ h, fun h => ?_⟩,
    fun h hk => h (congrArg FileKey.hash_md5 hk),
    fun _ hu hk => hu (congrArg FileKey.url hk)⟩
  simp [FileKey.to_string_key, h]

/-- C4 counterexample: two `FileKey`s with the same content hash but
different urls compare unequal as values (dataclass equality includes the
url), even though their canonical string keys agree. -/
theorem filekey_equality_depends_on_url :
    FileKey.mk "0cc175b9c0f1b6a831c399e269772661" "https://a.example/f" ≠
      FileKey.mk "0cc175b9c0f1b6a831c399e269772661" "https://b.example/f"
    ∧ (FileKey.mk "0cc175b9c0f1b6a831c399e269772661" "https://a.example/f").to_string_key =
      (FileKey.mk "0cc175b9c0f1b6a831c399e269772661" "https://b.example/f").to_string_key := by
  decide

/-- Witness for C4: keys with equal url but different hashes are unequal. -/
theorem filekey_string_key_ignores_url_inst :
    FileKey.mk "0cc175b9" "https://u.example" ≠ FileKey.mk "92eb5ffe" "https://u.example" :=
  (filekey_string_key_ignores_url ⟨"0cc175b9", "https://u.example"⟩
      ⟨"92eb5ffe", "https://u.example"⟩).2.1 (by decide)

/-- C5 counterexample: on the classification identifiers
`["1010", "10", "101001"]` the sort of `utils.py:344` produces
`["101001", "1010", "10"]` — longest first — not the claimed order
`["10", "1010", "101001"]`. -/
theorem classification_sort_order_reversed :
    sort_oefos ["1010", "10", "101001"] ≠ ["10", "1010", "101001"]
    ∧ sort_oefos ["1010", "10", "101001"] = ["101001", "1010", "10"] := by
  decide

/-- C5 (amended): the flattened classification identifiers are sorted by
descending string length with ascending lexicographic tie-break, so for the
identifiers `["1010", "10", "101001"]` the file transformation appends them
in the order `["101001", "1010", "10"]`, each twice (untagged and
English-tagged), followed by the fixed literal appends
`"1010", "101001", "1010"` of `utils.py:349`. -/
theorem classification_sort_longest_first :
    Except.map oefos_append_ids (update_file_metadata_ops (sample_file "Presentationslide")) =
      Except.ok ["101001", "101001", "1010", "1010", "10", "10", "1010", "101001", "1010"] := by
  decide

/-- C6 counterexample: a file record whose resource-type string is not a key
of the fixed lookup table makes the file transformation raise `KeyError`
instead of completing. -/
theorem resourcetype_unmapped_raises_keyerror :
    update_file_metadata_ops (sample_file "Video") = Except.error "KeyError: Video" := by
  decide

/-- C6 (amended): only a resource-type string that is a key of the table and
maps to an explicit null entry is silently dropped: the file transformation
then completes and appends no learning-resource-type term.  Unrecognized
strings raise `KeyError` (see the counterexample). -/
theorem resourcetype_null_entry_dropped (file_json : FileJson) (t : Int)
    (htime : py_int file_json.timereleased = Except.ok t)
    (hnull : lookup_learningresourcetype file_json.resourcetype = Except.ok none) :
    ∃ ops, update_file_metadata_ops file_json = Except.ok ops
      ∧ ∀ op ∈ ops, op.is_lrt = false := by
  simp only [update_file_metadata_ops, htime, hnull]
  refine ⟨_, rfl, ?_⟩
  intro op hop
  simp only [List.mem_append] at hop
  rcases hop with ((((((((((h | h) | h) | h) | h) | h) | h) | h) | h) | h) | h) | h
  · by_cases hc : file_json.title = ""
    · rw [if_pos hc] at h
      simp at h
    · rw [if_neg hc] at h
      simp only [List.mem_singleton] at h
      subst h
      rfl
  · simp only [List.mem_singleton] at h
    subst h
    rfl
  · by_cases hc : html_unescape file_json.abstract = ""
    · rw [if_pos hc] at h
      simp at h
    · rw [if_neg hc] at h
      simp only [List.mem_singleton] at h
      subst h
      rfl
  · obtain ⟨tag, _, rfl⟩ := List.mem_map.mp h
    rfl
  · obtain ⟨person, _, rfl⟩ := List.mem_map.mp h
    rfl
  · simp only [List.mem_singleton] at h
    subst h
    rfl
  · simp only [List.mem_singleton] at h
    subst h
    rfl
  · simp only [List.mem_singleton] at h
    subst h
    rfl
  · simp at h
  · simp only [List.mem_singleton] at h
    subst h
    rfl
  · obtain ⟨id_, _, hid⟩ := List.mem_flatMap.mp h
    simp only [List.mem_cons, List.not_mem_nil, or_false] at hid
    rcases hid with rfl | rfl
    · rfl
    · rfl
  · simp only [List.mem_cons, List.not_mem_nil, or_false] at h
    rcases h with rfl | rfl | rfl
    · rfl
    · rfl
    · rfl

/-- Witness for C6 at a concrete record with resource-type
`"No selection"`. -/
theorem resourcetype_null_entry_dropped_inst :
    ∃ ops, update_file_metadata_ops (sample_file "No selection") = Except.ok ops
      ∧ ∀ op ∈ ops, op.is_lrt = false :=
  resourcetype_null_entry_dropped (sample_file "No selection") 1650000000
    (by decide) (by decide)
/-- C1: on a batch containing course, unit and file records, the
transform-dispatch stage does not complete: the `FileKey` task falls through
to the `else` branch of the dispatch and raises `TypeError`, and
`update_file_metadata` is never invoked — whatever the external
`LOMMetadata` semantics `apply_ops` is. -/
theorem transform_dispatch_raises_on_file_tasks
    (apply_ops : Json → List MetaOp → Json) :
    update_stage apply_ops c1_batch =
      Except.error "TypeError: Cannot handle key of type \x7btype(key)\x7d." := rfl

/-- C7: when the canonical key string is found in the registry,
`fetch_else_create` performs zero creates and exactly one read, and returns
a task whose `previous_json` and candidate `json` are equal copies of the
read representation such that no later mutation of the candidate alters
`previous_json`; when the key is absent, it performs exactly one create and
returns a task with `previous_json` null. -/
theorem fetch_else_create_reads_or_creates (registry : String → Option String)
    (store_read : String → Json) (fresh_pid : String) (fresh_json : Json) (k : String) :
    (∀ pid, registry k = some pid →
      fetch_else_create registry store_read fresh_pid fresh_json k =
        (⟨pid, some (store_read pid), store_read pid, none, none⟩, [SvcOp.read pid])
      ∧ ∀ f : Json → Json,
        (mutate_candidate (fetch_else_create registry store_read fresh_pid fresh_json k).1
            f).previous_json = some (store_read pid))
    ∧ (registry k = none →
      fetch_else_create registry store_read fresh_pid fresh_json k =
        (⟨fresh_pid, none, fresh_json, none, none⟩, [SvcOp.create k])) := by
  constructor
  · intro pid h
    constructor
    · simp [fetch_else_create, h]
    · intro f
      simp [fetch_else_create, h, mutate_candidate]
  · intro h
    simp [fetch_else_create, h]

/-- Witness for C7: a present key is read, an absent key is created. -/
theorem fetch_else_create_reads_or_creates_inst :
    fetch_else_create c7_registry c7_store_read "new-pid" Json.obj_nil "CourseKey(courseid=c42)" =
      (⟨"lom-7", some (c7_store_read "lom-7"), c7_store_read "lom-7", none, none⟩,
        [SvcOp.read "lom-7"])
    ∧ fetch_else_create c7_registry c7_store_read "new-pid" Json.obj_nil
        "UnitKey(courseid=c1, year=2020, semester=SS)" =
      (⟨"new-pid", none, Json.obj_nil, none, none⟩,
        [SvcOp.create "UnitKey(courseid=c1, year=2020, semester=SS)"]) :=
  ⟨((fetch_else_create_reads_or_creates c7_registry c7_store_read "new-pid" Json.obj_nil
      "CourseKey(courseid=c42)").1 "lom-7" (by decide)).1,
    (fetch_else_create_reads_or_creates c7_registry c7_store_read "new-pid" Json.obj_nil
      "UnitKey(courseid=c1, year=2020, semester=SS)").2 (by decide)⟩

/-- C8: `cache_files` stores the hexadecimal digest string for a provided
reference, but for a downloaded reference it stores the md5 hasher object
itself (`hash_` instead of `hash_.hexdigest()`, `utils.py:152`) — so a
downloaded file and a provided file with identical bytes do not receive
equal hash values, and the downloaded entry's hash is not a digest string at
all. -/
theorem cache_files_download_stores_md5_object :
    cache_files c8_md5hex c8_read_file c8_download "/tmp/run"
        (some [("https://a.example/f", "/local/f")])
        ["https://a.example/f", "https://b.example/f"] =
      Except.ok
        [("https://a.example/f", ⟨HashValue.hexdigest "0cc175b9", "/local/f"⟩),
          ("https://b.example/f", ⟨HashValue.md5_object [1, 2], "/tmp/run/1"⟩)]
    ∧ ∀ s : String, HashValue.md5_object [1, 2] ≠ HashValue.hexdigest s := by
  constructor
  · decide
  · intro s h
    exact HashValue.noConfusion h

/-- C9 (amended): the engine materializes no links at all: the link set
computed by `insert_moodle_into_db` is empty (`links.add` is commented out),
so the linking stage leaves every task of every batch unchanged and
`link_up` is never invoked. -/
theorem link_stage_identity (append_rel : Json → String → String → Json)
    (task_logs : List (Key × TaskLog)) :
    link_stage append_rel task_logs = task_logs := rfl

/-- C9 counterexample: on a concrete batch in which a unit belongs to a
course, the linking stage leaves both documents unchanged; in particular the
course task's candidate document does not reference the unit's pid (no
"has part" relation), and the unit task's candidate document does not
reference the course's pid (no "is part of" relation). -/
theorem link_stage_adds_no_relations_concrete :
    link_stage sample_append_rel c9_batch = c9_batch
    ∧ (link_stage sample_append_rel c9_batch).lookup (Key.course ⟨"c42"⟩) =
        some c9_course_task
    ∧ c9_course_task.json.mentions "pid-unit-9" = false
    ∧ (link_stage sample_append_rel c9_batch).lookup (Key.unit ⟨"c42", "2022", "WS"⟩) =
        some c9_unit_task
    ∧ c9_unit_task.json.mentions "pid-course-9" = false := by
  decide

/-- C10: running `insert_moodle_into_db` without the optional
`filepaths_by_url` argument passes its default `None` to `cache_files`,
which fails on `None.items()` before resolving any file reference — for
every batch, even one with no urls at all. -/
theorem cache_files_requires_provided_mapping
    (md5hex : List Nat → String) (read_file : String → List Nat)
    (download : String → Except String (List Nat)) (directory : String)
    (moodle_file_urls : List String) :
    insert_moodle_cache_step md5hex read_file download directory moodle_file_urls =
      Except.error "AttributeError: NoneType object has no attribute items" := rfl

end InvenioMoodle
